import Mathlib

/-!
Verification of the tracker-dashboard service (FastAPI routes, Snowflake
warehouse client, domain-enrichment matcher) against its natural-language
specification.  Strings manipulated character-by-character in the Python
source are embedded as `List Char`; HTTP-level messages are `String`.
All definitions are translated from the repository source
(`tracker-project/api.py`, `tracker-project/snowflake_db.py`,
`tracker-project/tracker.py`); definitions whose name ends in `_spec_model`
instead follow the specification's words, for comparison with the source.
-/

/-! ## Python string primitives -/

/-- Fuel-driven worker for `py_replace`.  The fuel starts at the length of
the subject string; every step either consumes `pat.length ≥ 1` characters
(a match) or one character, so the fuel never runs out before the subject
is exhausted and the result agrees exactly with Python `str.replace` for a
non-empty pattern (and is the identity for an empty pattern). -/
def py_replace_aux : Nat → List Char → List Char → List Char
  | 0, _, s => s
  | n + 1, pat, s =>
    if pat ≠ [] ∧ pat.isPrefixOf s then
      py_replace_aux n pat (s.drop pat.length)
    else
      match s with
      | [] => []
      | c :: rest => c :: py_replace_aux n pat rest

/-- Python `s.replace(pat, '')`: remove every (leftmost-first,
non-overlapping) occurrence of `pat` in `s`. -/
def py_replace (s pat : List Char) : List Char :=
  py_replace_aux s.length pat s

/-- Python `s.split(sep)[0]` for a one-character separator: the characters
before the first occurrence of `sep` (the whole string when absent). -/
def py_split_head (sep : Char) (s : List Char) : List Char :=
  s.takeWhile (fun c => c ≠ sep)

/-- Python `s.strip()`: remove leading and trailing whitespace. -/
def py_strip (s : List Char) : List Char :=
  ((s.dropWhile Char.isWhitespace).reverse.dropWhile Char.isWhitespace).reverse

/-- Characters after the first occurrence of `c`, or `none` when `c` is
absent — Python `s.split(c, 1)[1]`, with `none` marking the `IndexError`
case where the split produced a single piece. -/
def py_split_once_rest (c : Char) : List Char → Option (List Char)
  | [] => none
  | a :: rest => if a = c then some rest else py_split_once_rest c rest

/-! ## tracker.py — the `TrackerEnricher` domain matcher

The entity database downloaded at startup maps a company name to the list
of domain strings in its `properties` field.  -/

/-- One entry of the downloaded entity map: company name and its
`properties` list of domain strings. -/
abbrev EntityEntry := List Char × List (List Char)

/-- The keys of the dict handled by `TrackerEnricher.enrich`
(`domain`, `url`, `company`, `category`). -/
structure TrackerData where
  domain : List Char
  url : List Char
  company : List Char
  category : List Char
  deriving DecidableEq, Repr

/-- `TrackerEnricher._clean_domain`:
`domain.replace('www.', '').replace('https://', '').replace('http://', '').split('/')[0]`.
Note that `replace` removes every occurrence, not only a leading one. -/
def clean_domain (d : List Char) : List Char :=
  py_split_head '/'
    (py_replace (py_replace (py_replace d "www.".data) "https://".data) "http://".data)

/-- Python `needle in hay` on strings: contiguous-substring test. -/
def is_substring (needle : List Char) : List Char → Bool
  | [] => needle.isEmpty
  | c :: rest => needle.isPrefixOf (c :: rest) || is_substring needle rest

/-- `word in company_lower` tested over a keyword list (`any(...)`). -/
def contains_any (words : List (List Char)) (s : List Char) : Bool :=
  words.any (fun w => is_substring w s)

/-- Keyword buckets of `TrackerEnricher._get_category`, in source order. -/
def ad_words : List (List Char) :=
  ["google".data, "facebook".data, "doubleclick".data, "ad".data, "advertising".data]

def analytics_words : List (List Char) :=
  ["analytics".data, "metric".data, "chartbeat".data]

def social_words : List (List Char) :=
  ["social".data, "twitter".data, "instagram".data, "tiktok".data]

/-- `TrackerEnricher._get_category`: fixed keyword-in-name heuristic over
the lowercased company name, first bucket wins, default `"Tracking"`. -/
def get_category (company_name : List Char) : List Char :=
  let lower := company_name.map Char.toLower
  if contains_any ad_words lower then "Advertising".data
  else if contains_any analytics_words lower then "Analytics".data
  else if contains_any social_words lower then "Social".data
  else "Tracking".data

/-- The per-property test of `TrackerEnricher.enrich`:
`domain in prop or prop in domain` (bidirectional substring containment). -/
def domain_matches (d p : List Char) : Bool :=
  is_substring d p || is_substring p d

/-- The company-scan loop of `TrackerEnricher.enrich`: first company (in
database order) one of whose properties matches the cleaned domain. -/
def find_company (db : List EntityEntry) (d : List Char) : Option (List Char) :=
  match db with
  | [] => none
  | (name, props) :: rest =>
    if props.any (fun p => domain_matches d p) then some name
    else find_company rest d

/-- `TrackerEnricher.enrich`: return the record unchanged when `company` is
already truthy (non-empty); otherwise clean the domain, scan the entity
database and fill company/category from the first match, or mark both
`"Unknown"`. -/
def enrich (db : List EntityEntry) (t : TrackerData) : TrackerData :=
  if t.company ≠ [] then t
  else
    match find_company db (clean_domain t.domain) with
    | some name => { t with company := name, category := get_category name }
    | none => { t with company := "Unknown".data, category := "Unknown".data }

/-- Modelled from the spec (section 4.2): the normalization as the
specification words it — "strip scheme and leading www." only.  Used to
compare the spec's description of `_clean_domain` with the source. -/
def clean_domain_spec_model (d : List Char) : List Char :=
  let noScheme :=
    if ("https://".data).isPrefixOf d then d.drop 8
    else if ("http://".data).isPrefixOf d then d.drop 7
    else d
  if ("www.".data).isPrefixOf noScheme then noScheme.drop 4 else noScheme

/-- Modelled from the spec (section 4.2): the lookup as the specification
words it — same first-match scan as the source but over the spec's
normalization `clean_domain_spec_model`. -/
def enrich_spec_model (db : List EntityEntry) (t : TrackerData) : TrackerData :=
  if t.company ≠ [] then t
  else
    match find_company db (clean_domain_spec_model t.domain) with
    | some name => { t with company := name, category := get_category name }
    | none => { t with company := "Unknown".data, category := "Unknown".data }

example : clean_domain "https://www.doubleclick.net/track".data = "doubleclick.net".data := by decide
example : clean_domain "ads.www.example.com".data = "ads.example.com".data := by decide
example : clean_domain_spec_model "ads.www.example.com".data = "ads.www.example.com".data := by decide
example : get_category "Google".data = "Advertising".data := by decide

/-! ## snowflake_db.py — the warehouse client

Each public operation opens its own connection; the embedding records the
warehouse operations a call performs in a `WOp` trace, and threads the
stored tables (`URL_DATA`, `COOKIES_DATA`, `blocklist`) as explicit lists.
`NULL` text columns are merged with the empty string. -/

/-- A stored `blocklist` row (`domain`, `user_email`, `reason`). -/
structure BlockRow where
  domain : List Char
  user : List Char
  reason : List Char
  deriving DecidableEq, Repr

/-- The `WHERE domain = %s AND user_email = %s` predicate. -/
def pair_matches (d u : List Char) (r : BlockRow) : Bool :=
  r.domain == d && r.user == u

/-- The existence check at the top of `add_to_blocklist`
(`SELECT 1 FROM blocklist WHERE domain = %s AND user_email = %s`). -/
def blocklist_has (rows : List BlockRow) (d u : List Char) : Bool :=
  rows.any (pair_matches d u)

/-- Number of stored rows for a `(domain, user)` pair. -/
def count_pair (rows : List BlockRow) (d u : List Char) : Nat :=
  rows.countP (pair_matches d u)

/-- `SnowflakeDB.add_to_blocklist`: return `(rows, false)` when the pair is
already present, otherwise insert one row — with each field truncated to
255 characters, as in `domain[:255]`, `user_email[:255]`, `reason[:255]` —
and return `true`.  Note the existence check compares the *untruncated*
domain/user. -/
def add_to_blocklist (rows : List BlockRow) (d u reason : List Char) :
    List BlockRow × Bool :=
  if blocklist_has rows d u then (rows, false)
  else (rows ++ [⟨d.take 255, u.take 255, reason.take 255⟩], true)

/-- A stored `URL_DATA` row; the columns named by the insert in
`insert_trackers` plus the autoincrement `ID` the reads rely on. -/
structure UrlRow where
  id : Nat
  domain : List Char
  fullUrl : List Char
  initiator : List Char
  company : List Char
  category : List Char
  occurrences : Nat
  emailId : List Char
  deriving DecidableEq, Repr

/-- One element of `UploadRequest.trackers` — the dict keys that
`insert_trackers` reads (`timestamp`/`lastSeen` are parsed into
`first_seen`/`last_seen` but never stored, so they are omitted here). -/
structure TrackerUpload where
  domain : List Char
  fullUrl : List Char
  initiator : List Char
  company : List Char
  category : List Char
  occurrences : Nat
  deriving DecidableEq, Repr

/-- One element of `UploadRequest.cookies` (the `CookieData` shape). -/
structure CookieUpload where
  name : List Char
  domain : List Char
  value : List Char
  company : List Char
  category : List Char
  sameSite : List Char
  expiration : List Char
  httpOnly : Bool
  secure : Bool
  isThirdParty : Bool
  deriving DecidableEq, Repr

/-- A stored `COOKIES_DATA` row (columns referenced by the cookie reads);
`insert_cookies` never writes one. -/
structure CookieRow where
  userEmail : List Char
  name : List Char
  domain : List Char
  isThirdParty : Bool
  isTracker : Bool
  isPersist : Bool
  deriving DecidableEq, Repr

/-- Warehouse operations a call can perform, for frame reasoning. -/
inductive WOp where
  | insertTrackerRows (n : Nat)
  | queryUnenriched
  | updateTracker (id : Nat)
  deriving DecidableEq, Repr

/-- Whether a warehouse operation is an insert. -/
def is_insert_op : WOp → Bool
  | .insertTrackerRows _ => true
  | _ => false

/-- The row built by the `INSERT INTO URL_DATA` statement of
`insert_trackers`, with the source's per-column truncations; the `ID`
column is autoincremented by the warehouse, modelled as the row position. -/
def mk_url_row (id : Nat) (t : TrackerUpload) (email : List Char) : UrlRow :=
  ⟨id, t.domain.take 255, t.fullUrl.take 2000, t.initiator.take 500,
    t.company.take 255, t.category.take 100, t.occurrences, email.take 255⟩

/-- `SnowflakeDB.insert_trackers`: `0` rows and no connection for an empty
batch; otherwise insert one row per tracker under a single transaction and
return the count. -/
def insert_trackers (urlData : List UrlRow) (trackers : List TrackerUpload)
    (email : List Char) : List UrlRow × Nat × List WOp :=
  if trackers.isEmpty then (urlData, 0, [])
  else
    (urlData ++ trackers.enum.map (fun p => mk_url_row (urlData.length + p.1) p.2 email),
      trackers.length, [.insertTrackerRows trackers.length])

/-- `SnowflakeDB.insert_cookies`: returns `0` for an empty batch, and for a
non-empty batch prints "Cookies table requires elevated permissions -
skipping insertion" and returns `0` — no row is ever written and no
connection is opened. -/
def insert_cookies (rows : List CookieRow) (_cookies : List CookieUpload)
    (_email _device : List Char) : List CookieRow × Nat :=
  (rows, 0)

/-- The `WHERE COMPANY IS NULL OR COMPANY = '' OR COMPANY = 'Unknown'`
filter of `get_unenriched_trackers` (`NULL` merged with `''`). -/
def unenriched_filter (r : UrlRow) : Bool :=
  r.company == [] || r.company == "Unknown".data

/-- `SnowflakeDB.get_unenriched_trackers`: the filtered rows, `LIMIT`ed. -/
def get_unenriched_trackers (urlData : List UrlRow) (limit : Nat) : List UrlRow :=
  (urlData.filter unenriched_filter).take limit

/-- `SnowflakeDB.update_enriched_tracker`:
`UPDATE URL_DATA SET COMPANY = %s, CATEGORY = %s WHERE ID = %s`, with the
source's truncations applied by the caller wrapper below. -/
def apply_update (rows : List UrlRow) (u : Nat × List Char × List Char) : List UrlRow :=
  rows.map (fun r => if r.id = u.1 then { r with company := u.2.1, category := u.2.2 } else r)

example : add_to_blocklist [] "a.com".data "u@x".data [] =
    ([⟨"a.com".data, "u@x".data, []⟩], true) := by decide
example : (insert_trackers [] [⟨"d".data, [], [], [], [], 1⟩] "e".data).2.1 = 1 := by decide

/-! ## api.py — the HTTP route layer

Responses the routes return as plain dicts travel as HTTP 200 JSON bodies;
an `HTTPException` travels as an error status.  Routes whose only modelled
failure is the raised `HTTPException` return `Except HTTPErr`; upload
routes, whose missing-warehouse path returns a normal body, return the
body directly (warehouse exceptions on the configured path are outside
this pure model).  The `configured` flag is whether the startup
`SnowflakeDB()` succeeded (`snowflake_db` is not `None`). -/

/-- An `HTTPException`: status code and detail message. -/
structure HTTPErr where
  status : Nat
  detail : String
  deriving DecidableEq, Repr

/-- HTTP status of a route result: a plain body is a 200. -/
def response_status {α : Type} : Except HTTPErr α → Nat
  | .ok _ => 200
  | .error e => e.status

/-- Body of `POST /api/blocklist`. -/
structure BlocklistResp where
  success : Bool
  message : String
  deriving DecidableEq, Repr

/-- `POST /api/blocklist` (`api.add_to_blocklist`): raises 503 when the
warehouse client is missing; otherwise adds and reports whether the domain
was added or already present. -/
def api_add_to_blocklist (configured : Bool) (rows : List BlockRow)
    (domain email reason : List Char) : Except HTTPErr BlocklistResp × List BlockRow :=
  if !configured then (.error ⟨503, "Database not available"⟩, rows)
  else
    let res := add_to_blocklist rows domain email reason
    if res.2 then (.ok ⟨true, "Domain added to blocklist"⟩, res.1)
    else (.ok ⟨true, "Domain already in blocklist"⟩, res.1)

/-- Body of `POST /api/trackers`. -/
structure UploadResp where
  success : Bool
  message : Option String
  cookies_inserted : Nat
  trackers_inserted : Nat
  deriving DecidableEq, Repr

/-- Body of `POST /api/cookies/upload`. -/
structure CookieUploadResp where
  success : Bool
  message : Option String
  cookies_inserted : Nat
  deriving DecidableEq, Repr

/-- The wrapper around `TrackerEnricher.enrich` run inline after an upload
(`api.enrich_unknown_trackers`): pull up to 50 unenriched rows, enrich
each, and update the row when the enriched company is neither `''` nor
`'Unknown'` (with `company[:255]`, `category[:100]` truncation). -/
def enrich_step (edb : List EntityEntry) (r : UrlRow) :
    Option (Nat × List Char × List Char) :=
  let e := enrich edb ⟨r.domain, r.fullUrl, r.company, r.category⟩
  if e.company ≠ [] ∧ e.company ≠ "Unknown".data then
    some (r.id, e.company.take 255, e.category.take 100)
  else none

/-- `api.enrich_unknown_trackers`: the updated `URL_DATA` table and the
warehouse operations performed (one unenriched-rows query, then one update
per enriched row). -/
def enrich_unknown_trackers (edb : List EntityEntry) (urlData : List UrlRow) :
    List UrlRow × List WOp :=
  let updates := (get_unenriched_trackers urlData 50).filterMap (enrich_step edb)
  (updates.foldl apply_update urlData,
    .queryUnenriched :: updates.map (fun u => WOp.updateTracker u.1))

/-- Everything `POST /api/trackers` produces: the response body, the new
warehouse tables, and the warehouse-operation trace. -/
structure UploadOutcome where
  resp : UploadResp
  urlData : List UrlRow
  cookieRows : List CookieRow
  ops : List WOp
  deriving Repr

/-- `POST /api/trackers` (`api.upload_tracker_data`): soft-fails with a
200 `success=false` body when the warehouse client is missing; otherwise
inserts the cookie batch (a permission-skipped no-op) and the tracker
batch when non-empty, then always runs the inline enrichment pass. -/
def upload_tracker_data (configured : Bool) (edb : List EntityEntry)
    (urlData : List UrlRow) (cookieRows : List CookieRow)
    (email device : List Char)
    (trackers : List TrackerUpload) (cookies : List CookieUpload) : UploadOutcome :=
  if !configured then
    ⟨⟨false, some "Database not available", 0, 0⟩, urlData, cookieRows, []⟩
  else
    let resC := if cookies.isEmpty then (cookieRows, 0)
      else insert_cookies cookieRows cookies email device
    let resT := if trackers.isEmpty then (urlData, 0, ([] : List WOp))
      else insert_trackers urlData trackers email
    let resE := enrich_unknown_trackers edb resT.1
    ⟨⟨true, none, resC.2, resT.2.1⟩, resE.1, resC.1, resT.2.2 ++ resE.2⟩

/-- `POST /api/cookies/upload` (`api.upload_cookie_data`): soft-fails with
a 200 `success=false` body when the warehouse client is missing; otherwise
calls `insert_cookies` (which skips insertion) and reports its count. -/
def api_upload_cookie_data (configured : Bool) (cookieRows : List CookieRow)
    (cookies : List CookieUpload) (email device : List Char) :
    CookieUploadResp × List CookieRow :=
  if !configured then (⟨false, some "Database not available", 0⟩, cookieRows)
  else
    let res := insert_cookies cookieRows cookies email device
    (⟨true, none, res.2⟩, res.1)

/-! ### The `/identify`, `/identify/batch`, `/stats` handlers

`tracker.py`'s `TrackerEnricher` defines exactly the methods below; the
three handlers call `identify`, `identify_batch` and `get_stats`, none of
which exists, so the calls raise `AttributeError` and the blanket
`except Exception` turns that into a 500.  The successful-call branches
are unreachable, hence carry no result (`Unit`); the `AttributeError`
text is modelled without the Python runtime quoting. -/

/-- The method names `class TrackerEnricher` defines in `tracker.py`. -/
def tracker_enricher_method_names : List String :=
  ["__init__", "_load_database", "enrich", "_clean_domain", "_get_category"]

/-- Whether attribute lookup on a `TrackerEnricher` instance succeeds. -/
def has_method (name : String) : Bool :=
  tracker_enricher_method_names.contains name

/-- `str(AttributeError)` for a missing `TrackerEnricher` attribute. -/
def no_attribute_msg (name : String) : String :=
  "TrackerEnricher object has no attribute " ++ name

/-- `POST /identify` (`api.identify_tracker`), with `inited` standing for
`tracker_identifier` being set (true after startup). -/
def identify_tracker (inited : Bool) (_domain : String) : Except HTTPErr Unit :=
  if !inited then .error ⟨503, "Tracker database not initialized"⟩
  else if has_method "identify" then .ok ()
  else .error ⟨500, "Error identifying domain: " ++ no_attribute_msg "identify"⟩

/-- `POST /identify/batch` (`api.identify_trackers_batch`). -/
def identify_trackers_batch (inited : Bool) (_domains : List String) : Except HTTPErr Unit :=
  if !inited then .error ⟨503, "Tracker database not initialized"⟩
  else if has_method "identify_batch" then .ok ()
  else .error ⟨500, "Error identifying domains: " ++ no_attribute_msg "identify_batch"⟩

/-- `GET /stats` (`api.get_database_stats`). -/
def get_database_stats (inited : Bool) : Except HTTPErr Unit :=
  if !inited then .error ⟨503, "Tracker database not initialized"⟩
  else if has_method "get_stats" then .ok ()
  else .error ⟨500, "Error retrieving stats: " ++ no_attribute_msg "get_stats"⟩

/-! ### `GET /api/overview` and `GET /api/trends` time-series padding

`YYYY-MM-DD` date strings are in bijection with calendar days, so dates
are embedded as integer day numbers; `today` is `datetime.now().date()`
and the warehouse rows are `(DATE, COUNT)` pairs.  The
`random.randint(...)` placeholder values are abstracted as a function
`rand` from the day to the drawn value — the claims under study never
depend on the drawn number. -/

/-- One element of the `timeSeries` / `trackerDaily` / `cookieDaily`
arrays (`value` is called `count` by the trends route). -/
structure SeriesEntry where
  date : Int
  value : Nat
  isReal : Bool
  deriving DecidableEq, Repr

/-- The dict comprehension `{row["DATE"]: row["VALUE"] for row in rows}`
followed by lookup: the value of the *last* row with the given date. -/
def dict_lookup (rows : List (Int × Nat)) (k : Int) : Option Nat :=
  rows.foldl (fun acc p => if p.1 = k then some p.2 else acc) none

/-- The shared body of the padding loops: for each offset `i` (descending,
as in `for i in range(w - 1, -1, -1)`), emit the real `(date, value)` when
`today - i` is a key of the real-data dict, else a synthetic entry flagged
`isReal=false` with a random value. -/
def day_series (window : List Nat) (today : Int) (realDaily : List (Int × Nat))
    (rand : Int → Nat) : List SeriesEntry :=
  window.map (fun (i : Nat) =>
    match dict_lookup realDaily (today - Int.ofNat i) with
    | some v => ⟨today - Int.ofNat i, v, true⟩
    | none => ⟨today - Int.ofNat i, rand (today - Int.ofNat i), false⟩)

/-- The `timeSeries` built by `api.get_overview`: a fixed 7-day window
`today-6 .. today` (`for i in range(6, -1, -1)`). -/
def overview_time_series (today : Int) (realDaily : List (Int × Nat))
    (rand : Int → Nat) : List SeriesEntry :=
  day_series (List.range 7).reverse today realDaily rand

/-- The `trackerDaily` series built by `api.get_trends` over a `days`-long
window (`for i in range(days - 1, -1, -1)`). -/
def trends_tracker_series (days : Nat) (today : Int) (realDaily : List (Int × Nat))
    (rand : Int → Nat) : List SeriesEntry :=
  day_series (List.range days).reverse today realDaily rand

/-- The `cookieDaily` series built by `api.get_trends`: every entry is a
synthetic placeholder ("dummy data since we can't access cookies DB yet"). -/
def trends_cookie_series (days : Nat) (today : Int) (rand : Int → Nat) :
    List SeriesEntry :=
  ((List.range days).reverse).map (fun (i : Nat) =>
    ⟨today - Int.ofNat i, rand (today - Int.ofNat i), false⟩)

/-- Entries flagged `isReal=false` in a series. -/
def synthetic_count (l : List SeriesEntry) : Nat :=
  l.countP (fun e => !e.isReal)

/-- Number of distinct dates among the warehouse rows of a series. -/
def distinct_dates (rows : List (Int × Nat)) : Nat :=
  (rows.map Prod.fst).dedup.length

/-- Number of window offsets whose date carries real data — the distinct
real dates that fall within the generated window. -/
def window_real_count (window : List Nat) (today : Int)
    (realDaily : List (Int × Nat)) : Nat :=
  window.countP (fun (i : Nat) => (dict_lookup realDaily (today - Int.ofNat i)).isSome)

example : synthetic_count (overview_time_series 100 [(100, 3), (97, 2)] (fun _ => 0)) = 5 := by
  decide

/-! ### `GET /api/security-report`

The route builds a prompt, calls the generative model exactly once, strips
optional markdown code fences from the reply and parses it as strict JSON.
The model reply is the input `modelText`; the Python `json` library is
abstracted as a `parse` parameter producing the fields the route reads
(`overallScore`, `summary`, `domainScores`), `none` meaning
`json.JSONDecodeError`. -/

/-- One element of the parsed `domainScores` array. -/
structure DomainScore where
  domain : String
  score : Int
  reason : String
  deriving DecidableEq, Repr

/-- The fields `api.get_security_report` reads off the parsed JSON object
(each may be absent: the route supplies defaults via `.get`). -/
structure ParsedReport where
  overallScore : Option Int
  summary : Option String
  domainScores : Option (List DomainScore)
  deriving DecidableEq, Repr

/-- The response body of `GET /api/security-report`. -/
structure SecReport where
  overallScore : Int
  summary : String
  top3Least : List DomainScore
  domainScores : List DomainScore
  deriving DecidableEq, Repr

/-- The fence-stripping block of `api.get_security_report`:
`strip()`, then — when the text starts with ```` ``` ```` — take what
follows the first newline (`split("\n", 1)[1]`, an `IndexError` when
there is no newline, surfaced as `.error`), and when that still ends with
```` ``` ```` drop the last three characters and `strip()` again. -/
def strip_code_fences (s0 : List Char) : Except String (List Char) :=
  let s := py_strip s0
  if ("```".data).isPrefixOf s then
    match py_split_once_rest '\n' s with
    | none => .error "list index out of range"
    | some rest =>
      if ("```".data).isSuffixOf rest then .ok (py_strip (rest.take (rest.length - 3)))
      else .ok rest
  else .ok s

/-- The response assembly after a successful parse: defaults `50` /
`"Analysis complete."`, and `top3Least` as the first three domain scores
(`all_scores[:3] if len(all_scores) >= 3 else all_scores`). -/
def build_security_report (r : ParsedReport) : SecReport :=
  let all := r.domainScores.getD []
  let top3 := if all.length ≥ 3 then all.take 3 else all
  ⟨r.overallScore.getD 50, r.summary.getD "Analysis complete.", top3, all⟩

/-- `api.get_security_report` from the model call onward: the model is
invoked exactly once (the second component counts invocations; the source
has no retry loop), its reply is fence-stripped and parsed, and a parse
failure is the `json.JSONDecodeError` handler
(`HTTPException(500, "Failed to parse AI response")`), while an exception
inside the stripping itself falls to the blanket `except Exception`
handler. -/
def security_report_from_model (parse : List Char → Option ParsedReport)
    (modelText : List Char) : Except HTTPErr SecReport × Nat :=
  match strip_code_fences modelText with
  | .error msg => (.error ⟨500, "Error generating security report: " ++ msg⟩, 1)
  | .ok txt =>
    match parse txt with
    | none => (.error ⟨500, "Failed to parse AI response"⟩, 1)
    | some r => (.ok (build_security_report r), 1)

/-- A strict parser that rejects everything — enough to exercise the
parse-failure paths of the route. -/
def parse_none : List Char → Option ParsedReport := fun _ => none

example : strip_code_fences "```json\n{}\n```".data = .ok "{}".data := rfl
example : strip_code_fences "```".data = .error "list index out of range" := rfl

/-! ## Helper lemmas -/

/-- `enrich` returns any record whose company is already non-empty
unchanged (the early-return branch). -/
theorem enrich_of_company_ne_nil (db : List EntityEntry) (t : TrackerData)
    (h : t.company ≠ []) : enrich db t = t := by
  simp [enrich, h]

/-- `find_company` misses when no listed property of any company matches. -/
theorem find_company_eq_none (db : List EntityEntry) (d : List Char)
    (h : ∀ e ∈ db, ∀ p ∈ e.2, domain_matches d p = false) :
    find_company db d = none := by
  induction db with
  | nil => rfl
  | cons e rest ih =>
    obtain ⟨name, props⟩ := e
    have hprops : props.any (fun p => domain_matches d p) = false := by
      simp only [List.any_eq_false]
      intro p hp
      simp [h ⟨name, props⟩ (by simp) p hp]
    simp only [find_company, hprops]
    simp only [Bool.false_eq_true, if_false]
    exact ih (fun e he p hp => h e (List.mem_cons_of_mem _ he) p hp)

/-- `find_company` returns the first company with a matching property. -/
theorem find_company_append (pre post : List EntityEntry) (name : List Char)
    (props : List (List Char)) (d : List Char)
    (hpre : ∀ e ∈ pre, ∀ p ∈ e.2, domain_matches d p = false)
    (hhit : ∃ p ∈ props, domain_matches d p = true) :
    find_company (pre ++ (name, props) :: post) d = some name := by
  induction pre with
  | nil =>
    have : props.any (fun p => domain_matches d p) = true := by
      simp only [List.any_eq_true]
      obtain ⟨p, hp, hm⟩ := hhit
      exact ⟨p, hp, hm⟩
    simp [find_company, this]
  | cons e rest ih =>
    obtain ⟨n2, props2⟩ := e
    have hprops : props2.any (fun p => domain_matches d p) = false := by
      simp only [List.any_eq_false]
      intro p hp
      simp [hpre ⟨n2, props2⟩ (by simp) p hp]
    simp only [List.cons_append, find_company, hprops]
    simp only [Bool.false_eq_true, if_false]
    exact ih (fun e he p hp => hpre e (List.mem_cons_of_mem _ he) p hp)

/-- The enrichment pass applies its sequence of row updates pointwise:
folding `apply_update` over the table is mapping the per-row fold over the
original rows. -/
theorem foldl_apply_update_eq_map (us : List (Nat × List Char × List Char))
    (rows : List UrlRow) :
    us.foldl apply_update rows =
      rows.map (fun r => us.foldl
        (fun row u => if row.id = u.1 then
          { row with company := u.2.1, category := u.2.2 } else row) r) := by
  induction us generalizing rows with
  | nil => simp
  | cons u us ih =>
    simp only [List.foldl_cons]
    rw [ih (apply_update rows u)]
    simp [apply_update, List.map_map, Function.comp]

/-- A row targeted by none of the updates is left unchanged by the
per-row fold. -/
theorem foldl_row_update_of_ne (us : List (Nat × List Char × List Char))
    (r : UrlRow) (h : ∀ u ∈ us, u.1 ≠ r.id) :
    us.foldl
      (fun row u => if row.id = u.1 then
        { row with company := u.2.1, category := u.2.2 } else row) r = r := by
  induction us with
  | nil => rfl
  | cons u us ih =>
    have hu : ¬ (r.id = u.1) := fun hh => h u (by simp) (hh.symm)
    simp only [List.foldl_cons, if_neg hu]
    exact ih (fun v hv => h v (List.mem_cons_of_mem _ hv))

/-- Every update emitted by the enrichment pass targets the `ID` of a
stored row whose company was empty: rows with company `'Unknown'` are
fetched but `enrich` returns them unchanged, so the
`not in ['Unknown', '']` guard skips them. -/
theorem enrich_update_target (edb : List EntityEntry) (urlData : List UrlRow)
    (u : Nat × List Char × List Char)
    (hu : u ∈ (get_unenriched_trackers urlData 50).filterMap (enrich_step edb)) :
    ∃ r ∈ urlData, r.company = [] ∧ u.1 = r.id := by
  rw [List.mem_filterMap] at hu
  obtain ⟨r, hr, hstep⟩ := hu
  have hrmem : r ∈ urlData.filter unenriched_filter :=
    List.mem_of_mem_take (by simpa [get_unenriched_trackers] using hr)
  rw [List.mem_filter] at hrmem
  obtain ⟨hrm, hrf⟩ := hrmem
  refine ⟨r, hrm, ?_⟩
  by_cases hc : r.company = []
  · refine ⟨hc, ?_⟩
    simp only [enrich_step] at hstep
    split at hstep
    · exact (Option.some.inj hstep) ▸ rfl
    · exact absurd hstep (by simp)
  · exfalso
    have hcu : r.company = "Unknown".data := by
      rcases (by simpa [unenriched_filter] using hrf : r.company = [] ∨ r.company = "Unknown".data) with h1 | h2
      · exact absurd h1 hc
      · exact h2
    have hne : "Unknown".data ≠ ([] : List Char) := by decide
    have henr : enrich edb ⟨r.domain, r.fullUrl, r.company, r.category⟩ =
        ⟨r.domain, r.fullUrl, r.company, r.category⟩ :=
      enrich_of_company_ne_nil _ _ (by simp [hcu, hne])
    simp only [enrich_step, henr] at hstep
    simp only [hcu] at hstep
    split at hstep
    · rename_i hcond
      exact hcond.2 rfl
    · exact absurd hstep (by simp)

/-- Splitting a boolean count over a predicate and its negation. -/
theorem countP_bnot_add {α : Type} (p : α → Bool) (l : List α) :
    l.countP (fun a => !p a) + l.countP p = l.length := by
  induction l with
  | nil => rfl
  | cons a l ih =>
    simp only [List.countP_cons, List.length_cons]
    cases h : p a <;> simp [h] <;> omega

/-- Mapping a function that fixes every element satisfying `P` relates a
list pointwise to its image: the `Forall₂` shape of the C3 frame claim. -/
theorem forall₂_map_of_fix {α : Type} (P : α → Prop) (f : α → α) (l : List α)
    (h : ∀ a ∈ l, P a → f a = a) :
    List.Forall₂ (fun orig new => P orig → new = orig) l (l.map f) := by
  induction l with
  | nil => exact List.Forall₂.nil
  | cons a l ih =>
    exact List.Forall₂.cons (fun hP => h a (by simp) hP)
      (ih (fun b hb => h b (List.mem_cons_of_mem _ hb)))

/-! ## The claims -/

/-- C3: every tracker record whose company field is already non-empty is
returned unchanged by `enrich`, and — over a stored table with distinct
row IDs — the inline enrichment pass leaves every row whose company is
already filled exactly as it was, so company/category are filled at most
once and never overwritten by a later enrichment run. -/
theorem c3_enrichment_never_overwrites :
    (∀ (edb : List EntityEntry) (t : TrackerData), t.company ≠ [] → enrich edb t = t) ∧
    (∀ (edb : List EntityEntry) (urlData : List UrlRow),
      (urlData.map UrlRow.id).Nodup →
      List.Forall₂ (fun orig new => orig.company ≠ [] → new = orig)
        urlData (enrich_unknown_trackers edb urlData).1) := by
  constructor
  · exact enrich_of_company_ne_nil
  · intro edb urlData hnodup
    simp only [enrich_unknown_trackers]
    rw [foldl_apply_update_eq_map]
    apply forall₂_map_of_fix
    intro r hr hrc
    apply foldl_row_update_of_ne
    intro u hu hid
    obtain ⟨r0, hr0, hr0c, hr0id⟩ := enrich_update_target edb urlData u hu
    have : r0 = r := List.inj_on_of_nodup_map hnodup hr0 hr (by rw [← hr0id, hid])
    exact hrc (this ▸ hr0c)

/-- Witness for C3 at a concrete database: a record with company "Acme"
passes through `enrich` unchanged, and a stored table whose single row is
already filled is untouched by the enrichment pass. -/
theorem c3_witness :
    enrich [] ⟨"d.com".data, [], "Acme".data, []⟩ = ⟨"d.com".data, [], "Acme".data, []⟩ ∧
    List.Forall₂ (fun orig new => orig.company ≠ [] → new = orig)
      [⟨1, "d.com".data, [], [], "Acme".data, [], 1, []⟩]
      (enrich_unknown_trackers [] [⟨1, "d.com".data, [], [], "Acme".data, [], 1, []⟩]).1 :=
  ⟨c3_enrichment_never_overwrites.1 [] ⟨"d.com".data, [], "Acme".data, []⟩ (by decide),
    c3_enrichment_never_overwrites.2 [] [⟨1, "d.com".data, [], [], "Acme".data, [], 1, []⟩]
      (by decide)⟩

/-- C10: enriching an empty-company record for `doubleclick.net` against a
database listing `doubleclick.net` under company "Google" yields
company "Google" and category "Advertising"; and a domain matching no
company's properties yields company and category "Unknown". -/
theorem c10_doubleclick_and_unknown :
    enrich [("Google".data, ["doubleclick.net".data])]
        ⟨"doubleclick.net".data, "https://doubleclick.net/track".data, [], []⟩ =
      ⟨"doubleclick.net".data, "https://doubleclick.net/track".data,
        "Google".data, "Advertising".data⟩ ∧
    (∀ (db : List EntityEntry) (t : TrackerData), t.company = [] →
      (∀ e ∈ db, ∀ p ∈ e.2, domain_matches (clean_domain t.domain) p = false) →
      enrich db t = { t with company := "Unknown".data, category := "Unknown".data }) := by
  constructor
  · decide
  · intro db t hc hmiss
    rw [enrich, if_neg (by simp [hc]), find_company_eq_none db _ hmiss]

/-- Witness for the universally quantified half of C10: a domain matching
nothing in a concrete one-company database comes back "Unknown". -/
theorem c10_witness :
    enrich [("Google".data, ["doubleclick.net".data])] ⟨"zz.qq".data, [], [], []⟩ =
      { TrackerData.mk "zz.qq".data [] [] [] with
          company := "Unknown".data, category := "Unknown".data } :=
  c10_doubleclick_and_unknown.2 [("Google".data, ["doubleclick.net".data])]
    ⟨"zz.qq".data, [], [], []⟩ rfl (by decide)

/-- C9 counterexample: the code's normalization removes **every**
occurrence of `www.` (and truncates at the first `/`), not only a leading
`www.` after the scheme, so for the domain `ads.www.example.com` the code
resolves company "G" (via property `ads.example.com`) while the
spec-described procedure resolves "Unknown". -/
theorem c9_counterexample :
    clean_domain "ads.www.example.com".data = "ads.example.com".data ∧
    clean_domain_spec_model "ads.www.example.com".data = "ads.www.example.com".data ∧
    (enrich [("G".data, ["ads.example.com".data])]
      ⟨"ads.www.example.com".data, [], [], []⟩).company = "G".data ∧
    (enrich_spec_model [("G".data, ["ads.example.com".data])]
      ⟨"ads.www.example.com".data, [], [], []⟩).company = "Unknown".data := by
  decide

/-- C9 as amended: the lookup normalizes by removing every occurrence of
`www.`, then `https://`, then `http://`, then truncating at the first
slash (`clean_domain`); it then tests bidirectional substring containment
against every company's listed domain strings in database order, and the
first matching company wins. -/
theorem c9_first_match_wins :
    ∀ (pre post : List EntityEntry) (name : List Char) (props : List (List Char))
      (t : TrackerData),
      t.company = [] →
      (∀ e ∈ pre, ∀ p ∈ e.2, domain_matches (clean_domain t.domain) p = false) →
      (∃ p ∈ props, domain_matches (clean_domain t.domain) p = true) →
      enrich (pre ++ (name, props) :: post) t =
        { t with company := name, category := get_category name } := by
  intro pre post name props t hc hpre hhit
  rw [enrich, if_neg (by simp [hc]), find_company_append pre post name props _ hpre hhit]

/-- Witness for C9's amended claim: with an earlier non-matching company
in the database, the first matching company is the one assigned. -/
theorem c9_witness :
    enrich ([("A".data, ["zz".data])] ++ ("G".data, ["doubleclick.net".data]) :: [])
        ⟨"doubleclick.net".data, [], [], []⟩ =
      { TrackerData.mk "doubleclick.net".data [] [] [] with
          company := "G".data, category := get_category "G".data } :=
  c9_first_match_wins [("A".data, ["zz".data])] [] "G".data ["doubleclick.net".data]
    ⟨"doubleclick.net".data, [], [], []⟩ rfl (by decide) (by decide)

set_option maxRecDepth 40000 in
/-- C1 counterexample: the existence check compares the untruncated
domain while the insert stores `domain[:255]`, so for a 256-character
domain the second add does not find the stored row — it inserts again
(two identical stored rows) and reports "added", not "already in
blocklist". -/
theorem c1_counterexample :
    (api_add_to_blocklist true
        ((api_add_to_blocklist true [] (List.replicate 256 'a') "u@x".data []).2)
        (List.replicate 256 'a') "u@x".data []).1 =
      .ok ⟨true, "Domain added to blocklist"⟩ ∧
    ((api_add_to_blocklist true
        ((api_add_to_blocklist true [] (List.replicate 256 'a') "u@x".data []).2)
        (List.replicate 256 'a') "u@x".data []).2).length = 2 ∧
    count_pair
      ((api_add_to_blocklist true
          ((api_add_to_blocklist true [] (List.replicate 256 'a') "u@x".data []).2)
          (List.replicate 256 'a') "u@x".data []).2)
      (List.replicate 255 'a') "u@x".data = 2 :=
  ⟨rfl, rfl, rfl⟩

/-- C1 as amended: for a `(domain, user)` pair whose fields fit the
255-character stored width, adding twice from a state without the pair
stores exactly one row; the first call reports the domain was added, and
the second performs no insert, leaves the blocklist unchanged and reports
the domain is already in the blocklist. -/
theorem c1_blocklist_add_idempotent :
    ∀ (rows : List BlockRow) (d u reason : List Char),
      d.length ≤ 255 → u.length ≤ 255 →
      blocklist_has rows d u = false →
      (api_add_to_blocklist true rows d u reason).1 =
        .ok ⟨true, "Domain added to blocklist"⟩ ∧
      (api_add_to_blocklist true (api_add_to_blocklist true rows d u reason).2
          d u reason).1 = .ok ⟨true, "Domain already in blocklist"⟩ ∧
      (api_add_to_blocklist true (api_add_to_blocklist true rows d u reason).2
          d u reason).2 = (api_add_to_blocklist true rows d u reason).2 ∧
      count_pair (api_add_to_blocklist true rows d u reason).2 d u = 1 := by
  intro rows d u reason hd hu habs
  have htd : d.take 255 = d := List.take_of_length_le hd
  have htu : u.take 255 = u := List.take_of_length_le hu
  have hnew : pair_matches d u ⟨d.take 255, u.take 255, reason.take 255⟩ = true := by
    simp [pair_matches, htd, htu]
  have hfirst : api_add_to_blocklist true rows d u reason =
      (.ok ⟨true, "Domain added to blocklist"⟩,
        rows ++ [⟨d.take 255, u.take 255, reason.take 255⟩]) := by
    simp [api_add_to_blocklist, add_to_blocklist, habs]
  have hhas2 : blocklist_has (rows ++ [⟨d.take 255, u.take 255, reason.take 255⟩]) d u = true := by
    simp only [blocklist_has, List.any_append, List.any_cons, List.any_nil]
    simp [hnew]
  have hzero : rows.countP (pair_matches d u) = 0 := by
    rw [List.countP_eq_zero]
    intro r hr
    have := (List.any_eq_false.mp (by simpa [blocklist_has] using habs)) r hr
    simp [this]
  refine ⟨by rw [hfirst], ?_, ?_, ?_⟩
  · rw [hfirst]
    simp [api_add_to_blocklist, add_to_blocklist, hhas2]
  · rw [hfirst]
    simp [api_add_to_blocklist, add_to_blocklist, hhas2]
  · rw [hfirst]
    simp only [count_pair, List.countP_append, hzero]
    simp [List.countP_cons, hnew]

/-- Witness for C1's amended claim at a concrete pair on an empty
blocklist. -/
theorem c1_witness :
    (api_add_to_blocklist true [] "ads.example.com".data "u@x".data []).1 =
      .ok ⟨true, "Domain added to blocklist"⟩ ∧
    (api_add_to_blocklist true
        (api_add_to_blocklist true [] "ads.example.com".data "u@x".data []).2
        "ads.example.com".data "u@x".data []).1 =
      .ok ⟨true, "Domain already in blocklist"⟩ ∧
    (api_add_to_blocklist true
        (api_add_to_blocklist true [] "ads.example.com".data "u@x".data []).2
        "ads.example.com".data "u@x".data []).2 =
      (api_add_to_blocklist true [] "ads.example.com".data "u@x".data []).2 ∧
    count_pair (api_add_to_blocklist true [] "ads.example.com".data "u@x".data []).2
      "ads.example.com".data "u@x".data = 1 :=
  c1_blocklist_add_idempotent [] "ads.example.com".data "u@x".data []
    (by decide) (by decide) (by decide)

/-- C2 counterexample: with the warehouse configured, uploading a batch
with zero trackers and zero cookies does return inserted counts of 0, but
it still touches the warehouse — the unconditional inline enrichment pass
opens a connection and executes the unenriched-rows query. -/
theorem c2_counterexample :
    (upload_tracker_data true [] [] [] [] [] [] []).ops = [WOp.queryUnenriched] ∧
    (upload_tracker_data true [] [] [] [] [] [] []).resp = ⟨true, none, 0, 0⟩ ∧
    [WOp.queryUnenriched] ≠ ([] : List WOp) :=
  ⟨rfl, rfl, by decide⟩

/-- C2 as amended: an empty batch always reports `trackers_inserted = 0`
and `cookies_inserted = 0` and performs no insert operation, and no cookie
row changes; but with the warehouse configured the enrichment pass still
runs, its first warehouse operation being the unenriched-rows query
(without the warehouse nothing at all is executed). -/
theorem c2_empty_upload :
    ∀ (configured : Bool) (edb : List EntityEntry) (urlData : List UrlRow)
      (cookieRows : List CookieRow) (email device : List Char),
      (upload_tracker_data configured edb urlData cookieRows email device [] []).resp.trackers_inserted = 0 ∧
      (upload_tracker_data configured edb urlData cookieRows email device [] []).resp.cookies_inserted = 0 ∧
      (upload_tracker_data configured edb urlData cookieRows email device [] []).ops.all
        (fun op => !is_insert_op op) = true ∧
      (upload_tracker_data configured edb urlData cookieRows email device [] []).cookieRows = cookieRows ∧
      (upload_tracker_data true edb urlData cookieRows email device [] []).ops.head? =
        some WOp.queryUnenriched ∧
      (upload_tracker_data false edb urlData cookieRows email device [] []).ops = [] := by
  intro configured edb urlData cookieRows email device
  have hall : ∀ (edb : List EntityEntry) (rows : List UrlRow),
      (upload_tracker_data true edb rows cookieRows email device [] []).ops.all
        (fun op => !is_insert_op op) = true := by
    intro edb rows
    have hops : (upload_tracker_data true edb rows cookieRows email device [] []).ops =
        WOp.queryUnenriched ::
          ((get_unenriched_trackers rows 50).filterMap (enrich_step edb)).map
            (fun u => WOp.updateTracker u.1) := rfl
    rw [hops, List.all_cons]
    apply Bool.and_eq_true_iff.mpr
    refine ⟨rfl, ?_⟩
    rw [List.all_eq_true]
    intro op hop
    obtain ⟨u, _, hu⟩ := List.mem_map.mp hop
    rw [← hu]
    rfl
  cases configured
  · exact ⟨rfl, rfl, rfl, rfl, rfl, rfl⟩
  · exact ⟨rfl, rfl, hall edb urlData, rfl, rfl, rfl⟩

/-- C4 counterexample: with no warehouse client configured, the
blocklist-add write route does not soft-fail with a 200 `success=false`
body — it raises `HTTPException(503, "Database not available")`. -/
theorem c4_counterexample :
    (api_add_to_blocklist false [] "a.com".data "u@x".data []).1 =
      .error ⟨503, "Database not available"⟩ ∧
    response_status (api_add_to_blocklist false [] "a.com".data "u@x".data []).1 = 503 ∧
    response_status (api_add_to_blocklist false [] "a.com".data "u@x".data []).1 ≠ 200 :=
  ⟨rfl, rfl, by decide⟩

/-- C4 as amended: with the warehouse client unconfigured, the
tracker-batch and cookie-batch upload routes respond HTTP 200 with
`success=false` and zero inserted counts, but the blocklist-add route
responds with HTTP error 503 "Database not available". -/
theorem c4_soft_fail :
    ∀ (edb : List EntityEntry) (urlData : List UrlRow) (cookieRows : List CookieRow)
      (email device d u reason : List Char) (trackers : List TrackerUpload)
      (cookies : List CookieUpload) (rows : List BlockRow),
      (upload_tracker_data false edb urlData cookieRows email device trackers cookies).resp =
        ⟨false, some "Database not available", 0, 0⟩ ∧
      (api_upload_cookie_data false cookieRows cookies email device).1 =
        ⟨false, some "Database not available", 0⟩ ∧
      (api_add_to_blocklist false rows d u reason).1 =
        .error ⟨503, "Database not available"⟩ := by
  intro edb urlData cookieRows email device d u reason trackers cookies rows
  exact ⟨rfl, rfl, rfl⟩

/-- C5 counterexample: uploading one cookie with the warehouse configured
creates no cookie event record (`insert_cookies` skips insertion) even
though one cookie was uploaded — `cookies_inserted` is 0, which is not
the number of uploaded cookies. -/
theorem c5_counterexample :
    (upload_tracker_data true [] [] [] [] [] []
        [⟨"_ga".data, "ga.com".data, [], [], [], [], [], false, true, true⟩]).resp.cookies_inserted = 0 ∧
    (upload_tracker_data true [] [] [] [] [] []
        [⟨"_ga".data, "ga.com".data, [], [], [], [], [], false, true, true⟩]).cookieRows = [] ∧
    (0 : Nat) ≠
      [(⟨"_ga".data, "ga.com".data, [], [], [], [], [], false, true, true⟩ : CookieUpload)].length :=
  ⟨rfl, rfl, by decide⟩

/-- C5 as amended: no cookie event record is ever persisted — cookie
insertion is permission-skipped — so both upload routes always report
`cookies_inserted = 0` and leave the stored cookie rows unchanged; the
reported count does equal the number of cookie events actually persisted,
namely zero. -/
theorem c5_cookies_never_persisted :
    ∀ (configured : Bool) (edb : List EntityEntry) (urlData : List UrlRow)
      (cookieRows : List CookieRow) (email device : List Char)
      (trackers : List TrackerUpload) (cookies : List CookieUpload),
      (upload_tracker_data configured edb urlData cookieRows email device trackers cookies).resp.cookies_inserted = 0 ∧
      (upload_tracker_data configured edb urlData cookieRows email device trackers cookies).cookieRows = cookieRows ∧
      (api_upload_cookie_data configured cookieRows cookies email device).1.cookies_inserted = 0 ∧
      (api_upload_cookie_data configured cookieRows cookies email device).2 = cookieRows := by
  intro configured edb urlData cookieRows email device trackers cookies
  cases configured
  · exact ⟨rfl, rfl, rfl, rfl⟩
  · refine ⟨?_, ?_, rfl, rfl⟩ <;>
      simp [upload_tracker_data, insert_cookies, ite_self]

/-- C6: after startup (the enricher global is set), every request to
`POST /identify`, `POST /identify/batch` and `GET /stats` returns
HTTP 500: the handlers call `identify`, `identify_batch` and `get_stats`,
none of which `TrackerEnricher` defines, so the call raises
`AttributeError` and the blanket handler converts it to a 500. -/
theorem c6_identify_routes_500 :
    ∀ (d : String) (ds : List String),
      has_method "identify" = false ∧
      has_method "identify_batch" = false ∧
      has_method "get_stats" = false ∧
      identify_tracker true d =
        .error ⟨500, "Error identifying domain: " ++ no_attribute_msg "identify"⟩ ∧
      identify_trackers_batch true ds =
        .error ⟨500, "Error identifying domains: " ++ no_attribute_msg "identify_batch"⟩ ∧
      get_database_stats true =
        .error ⟨500, "Error retrieving stats: " ++ no_attribute_msg "get_stats"⟩ := by
  intro d ds
  exact ⟨rfl, rfl, rfl, rfl, rfl, rfl⟩

/-- In any padded series, synthetic entries and window dates carrying
real data partition the window. -/
theorem day_series_synthetic_add (w : List Nat) (today : Int)
    (rd : List (Int × Nat)) (rand : Int → Nat) :
    synthetic_count (day_series w today rd rand) + window_real_count w today rd =
      w.length := by
  induction w with
  | nil => rfl
  | cons a w ih =>
    cases h : dict_lookup rd (today - Int.ofNat a) with
    | some v =>
      have hd : day_series (a :: w) today rd rand =
          ⟨today - Int.ofNat a, v, true⟩ :: day_series w today rd rand := by
        simp only [day_series, List.map_cons, h]
      have hs : synthetic_count (day_series (a :: w) today rd rand) =
          synthetic_count (day_series w today rd rand) := by
        rw [hd]
        simp [synthetic_count, List.countP_cons]
      have hw : window_real_count (a :: w) today rd =
          window_real_count w today rd + 1 := by
        simp only [window_real_count, List.countP_cons, h]
        rfl
      rw [hs, hw, List.length_cons]
      omega
    | none =>
      have hd : day_series (a :: w) today rd rand =
          ⟨today - Int.ofNat a, rand (today - Int.ofNat a), false⟩ ::
            day_series w today rd rand := by
        simp only [day_series, List.map_cons, h]
      have hs : synthetic_count (day_series (a :: w) today rd rand) =
          synthetic_count (day_series w today rd rand) + 1 := by
        rw [hd]
        simp [synthetic_count, List.countP_cons]
      have hw : window_real_count (a :: w) today rd =
          window_real_count w today rd := by
        simp only [window_real_count, List.countP_cons, h]
        rfl
      rw [hs, hw, List.length_cons]
      omega

/-- C7 counterexample: a warehouse row whose date lies outside the
generated 7-day window (today = day 100, real date = day 0) leaves all 7
overview entries synthetic while one distinct real date was returned, so
the number of synthetic entries (7) exceeds window − distinct-real-dates
(7 − 1 = 6). -/
theorem c7_counterexample :
    synthetic_count (overview_time_series 100 [(0, 5)] (fun _ => 0)) = 7 ∧
    distinct_dates [(0, 5)] = 1 ∧
    ¬ (synthetic_count (overview_time_series 100 [(0, 5)] (fun _ => 0)) +
        distinct_dates [(0, 5)] ≤ 7) := by
  refine ⟨by decide, by decide, by decide⟩

/-- C7 as amended: the number of entries flagged synthetic equals the
requested window length minus the count of distinct real dates that fall
**within the generated window** (so the claimed bound holds against the
in-window real dates, not against all dates the warehouse returns); the
trends cookie series is entirely synthetic. -/
theorem c7_synthetic_padding :
    ∀ (today : Int) (rd : List (Int × Nat)) (rand randC : Int → Nat) (days : Nat),
      synthetic_count (overview_time_series today rd rand) =
        7 - window_real_count (List.range 7).reverse today rd ∧
      synthetic_count (trends_tracker_series days today rd rand) =
        days - window_real_count (List.range days).reverse today rd ∧
      synthetic_count (trends_cookie_series days today randC) = days := by
  intro today rd rand randC days
  have h1 := day_series_synthetic_add (List.range 7).reverse today rd rand
  have h2 := day_series_synthetic_add (List.range days).reverse today rd rand
  simp only [List.length_reverse, List.length_range] at h1 h2
  refine ⟨by rw [overview_time_series]; omega, by rw [trends_tracker_series]; omega, ?_⟩
  have key : ∀ l : List Nat, List.countP (fun e => !e.isReal)
      (l.map fun (i : Nat) =>
        SeriesEntry.mk (today - Int.ofNat i) (randC (today - Int.ofNat i)) false) =
      l.length := by
    intro l
    induction l with
    | nil => rfl
    | cons a l ih =>
      simp only [List.map_cons, List.countP_cons, ih, List.length_cons]
      rfl
  simp only [synthetic_count, trends_cookie_series]
  rw [key, List.length_reverse, List.length_range]

/-- C8 counterexample: the model reply consisting of just ```` ``` ````
does not strip-and-parse to JSON, yet the route does not fail with
"Failed to parse AI response" — the fence-stripping `split("\n", 1)[1]`
raises `IndexError`, which the blanket handler turns into the *other*
error kind, 500 "Error generating security report: ...". -/
theorem c8_counterexample :
    ((strip_code_fences "```".data).toOption.bind parse_none) = none ∧
    (security_report_from_model parse_none "```".data).1 =
      .error ⟨500, "Error generating security report: list index out of range"⟩ ∧
    "Error generating security report: list index out of range" ≠
      "Failed to parse AI response" :=
  ⟨rfl, rfl, by decide⟩

/-- C8 as amended: whenever fence-stripping itself succeeds and the
stripped text is not valid JSON, the route fails that single request with
exactly HTTP 500 "Failed to parse AI response" and calls the model exactly
once (no retry); only a reply starting with a code fence but containing no
newline escapes this, failing the stripping step instead. -/
theorem c8_parse_failure_single_error :
    ∀ (parse : List Char → Option ParsedReport) (out t : List Char),
      strip_code_fences out = .ok t → parse t = none →
      security_report_from_model parse out =
        (.error ⟨500, "Failed to parse AI response"⟩, 1) := by
  intro parse out t h1 h2
  simp [security_report_from_model, h1, h2]

/-- Witness for C8's amended claim: a non-JSON reply with no code fence is
rejected with the single parse-failure error kind after one model call. -/
theorem c8_witness :
    security_report_from_model parse_none "notjson".data =
      (.error ⟨500, "Failed to parse AI response"⟩, 1) :=
  c8_parse_failure_single_error parse_none "notjson".data "notjson".data rfl rfl
